import Mathlib

/-!
Shallow embedding of `src/silverbp_jfrog/artifactory.py` (the latest variant of
the silverbp/pypi-artifactory client, which the specification designates as the
target behaviour) together with proofs about the claims of the specification.

Conventions of the embedding:
* Python strings are Lean `String`s; a Python value that may be `None` is an
  `Option`.
* Byte contents of files and HTTP bodies are `List Nat` with each entry a byte.
* Raising an exception is returning `Except.error`; the distinct Python
  exception classes that can be observed are the constructors of `ApiErr`.
* The HTTP transport (`requests`) and the local filesystem are external
  collaborators; they are passed in as explicit oracles (`String → Response`,
  `String → Option (List Nat)`).
-/

set_option autoImplicit false
set_option maxRecDepth 8192

namespace Artifactory

/-- Python truthiness of an optional string: `None` and `''` are falsy. -/
def truthyOpt : Option String → Bool
  | none => false
  | some s => s ≠ ""

/-- Python `x or d` for an optional string `x` and string default `d`. -/
def pyOrStr (x : Option String) (d : String) : String :=
  if truthyOpt x then x.getD "" else d

/-- Python `str.format` rendering of a possibly-`None` string value
(`None` renders as the text `None`). -/
def pyStrOpt : Option String → String
  | none => "None"
  | some s => s

/-- Python `int(b)` of a boolean, as rendered by `str.format`. -/
def pyIntOfBool (b : Bool) : String := if b then "1" else "0"

/-- Python `s.strip(c)` for a single strip character: remove leading and
trailing occurrences of `c`. Used by `Api.__init__` with `'/'`. -/
def pyStripChar (c : Char) (s : String) : String :=
  String.mk (((s.data.dropWhile (fun x => x = c)).reverse.dropWhile
    (fun x => x = c)).reverse)

/-- Exception classes observable from the embedded code.
`artifactApiError` is the library's own `ArtifactApiError`; the others are
built-in Python exceptions that the code can raise when it touches a value of
the wrong shape. -/
inductive ApiErr where
  | artifactApiError (message : String)
  | attributeError
  | indexError
  | typeError
deriving DecidableEq, Repr

/-- State of an `Artifact` instance (its `self._*` attributes).
`id_version_seperator` keeps the source's spelling of `_id_version_seperator`,
the field the constructor derives; `version_separator_attr` is the
`_version_separator` attribute that only the (mis-decorated) setter at
line 88 would ever write, hence `none` after construction. -/
structure Artifact where
  artifact_id : String
  group_id : String
  repo : String
  version : Option String
  remote : Bool
  id_version_seperator : String
  extension : String
  subpath : String
  version_separator_attr : Option String
deriving DecidableEq, Repr

/-- `Artifact.__init__(artifact_id, group_id, repo, extension=None,
id_version_seperator=None)` (lines 24-38).  `self._extension = extension or ''`
stores the empty string for a missing extension.  The separator derivation at
lines 33-38 (whose `elif extension == 'nupkg'` line is missing its colon in the
source; the indentation makes the intended branching unambiguous) stores an
explicit truthy separator, else `'.'` for extension `'nupkg'`, else `'-'`,
into `self._id_version_seperator`. -/
def Artifact.init (artifact_id group_id repo : String)
    (extension : Option String) (id_version_seperator : Option String) :
    Artifact :=
  { artifact_id := artifact_id
    group_id := group_id
    repo := repo
    version := none
    remote := true
    id_version_seperator :=
      if truthyOpt id_version_seperator then id_version_seperator.getD ""
      else if extension = some "nupkg" then "." else "-"
    extension := (extension.getD "")
    subpath := ""
    version_separator_attr := none }

/-- The `version` property setter (lines 44-46). -/
def Artifact.set_version (a : Artifact) (version : String) : Artifact :=
  { a with version := some version }

/-- The `group_id` property setter (lines 64-66). -/
def Artifact.set_group_id (a : Artifact) (group_id : String) : Artifact :=
  { a with group_id := group_id }

/-- The `extension` property setter (lines 72-74). -/
def Artifact.set_extension (a : Artifact) (extension : String) : Artifact :=
  { a with extension := extension }

/-- The `subpath` property setter (lines 80-82). -/
def Artifact.set_subpath (a : Artifact) (subpath : String) : Artifact :=
  { a with subpath := subpath }

/-- Reading the `version_separator` property.  In the class body the plain
getter of lines 84-86 (which reads `self._version_separator`) is immediately
shadowed: lines 88-90 decorate a function named `version_separator` with
`@subpath.setter`, which rebinds the class attribute `version_separator` to a
copy of the `subpath` property with only its setter replaced.  The getter of
that property is `subpath`'s getter, so reading `artifact.version_separator`
returns `self._subpath`. -/
def Artifact.version_separator (a : Artifact) : String := a.subpath

/-- The setter produced by lines 88-90: writes `self._version_separator`,
an attribute nothing else reads. -/
def Artifact.set_version_separator (a : Artifact) (version_separator : String) :
    Artifact :=
  { a with version_separator_attr := some version_separator }

/-- `Artifact.get_url(base_url)` (lines 92-100): raises `ArtifactApiError`
when `version` or `extension` is falsy, otherwise formats
`"{0}/{1}/{2}/{3}/{3}{4}{5}.{6}"` with base url, repo, group id, artifact id
(twice), the `version_separator` property, version and extension, appending
`'!/' + subpath` when `subpath` is truthy. -/
def Artifact.get_url (a : Artifact) (base_url : String) : Except ApiErr String :=
  if ¬ truthyOpt a.version ∨ a.extension = "" then
    .error (.artifactApiError
      "version and extension must be specified to get the path")
  else
    let path := base_url ++ "/" ++ a.repo ++ "/" ++ a.group_id ++ "/" ++
      a.artifact_id ++ "/" ++ a.artifact_id ++ a.version_separator ++
      (a.version.getD "") ++ "." ++ a.extension
    .ok (if a.subpath ≠ "" then path ++ "!/" ++ a.subpath else path)

/-- The `name` property (lines 102-107): same precondition as `get_url`,
then `artifact_id + '.' + version + '.' + extension`. -/
def Artifact.name (a : Artifact) : Except ApiErr String :=
  if ¬ truthyOpt a.version ∨ a.extension = "" then
    .error (.artifactApiError
      "version and extension must be specified to get the name")
  else
    .ok (a.artifact_id ++ "." ++ (a.version.getD "") ++ "." ++ a.extension)

/-- `Artifact.__repr__` (lines 112-115). -/
def Artifact.repr (a : Artifact) : String :=
  if truthyOpt a.version then a.artifact_id ++ "." ++ (a.version.getD "")
  else a.artifact_id

/-! ### A small regex engine with Python `re` semantics

`get_artifact_metadata` runs `re.search` with the pattern
`\d+\.\d+(\.\d+)?(\.\d+)?\+\d+g[0-9a-f]{7}` (line 159).  The engine below
covers exactly the constructs of that pattern — single-character classes,
greedy `+` over a class, greedy `?`, and concatenation — with Python's
backtracking preference order: alternatives are enumerated greedily, and
`re.search` takes the leftmost starting position that admits a match, with the
first alternative in preference order deciding `group(0)`. -/

/-- Regex abstract syntax: character class, greedy one-or-more of a class,
greedy optional, concatenation. -/
inductive Re where
  | cls (p : Char → Bool)
  | rep (p : Char → Bool)
  | opt (a : Re)
  | seq (a b : Re)

/-- Remainders after matching `p+` against the front of the input, in greedy
(longest first) preference order. -/
def repMatches (p : Char → Bool) : List Char → List (List Char)
  | [] => []
  | c :: r => if p c then repMatches p r ++ [r] else []

/-- Remainders after matching a regex against the front of the input, in
backtracking preference order. -/
def reMatches : Re → List Char → List (List Char)
  | .cls _, [] => []
  | .cls p, c :: r => if p c then [r] else []
  | .rep p, cs => repMatches p cs
  | .opt a, cs => reMatches a cs ++ [cs]
  | .seq a b, cs => (reMatches a cs).flatMap (reMatches b)

/-- `re.search` scanning: the suffix at the leftmost matching position paired
with the preferred remainder there. -/
def reSearchFrom (r : Re) : List Char → Option (List Char × List Char)
  | [] =>
    match (reMatches r []).head? with
    | some rem => some ([], rem)
    | none => none
  | c :: rest =>
    match (reMatches r (c :: rest)).head? with
    | some rem => some (c :: rest, rem)
    | none => reSearchFrom r rest

/-- `re.search(pattern, s)` returning `match.group()` (the matched substring)
when a match exists. -/
def reSearch (r : Re) (s : String) : Option String :=
  match reSearchFrom r s.data with
  | some (cs, rem) => some (String.mk (cs.take (cs.length - rem.length)))
  | none => none

def isDigitChar (c : Char) : Bool := decide ('0' ≤ c) && decide (c ≤ '9')

def isHexLower (c : Char) : Bool :=
  isDigitChar c || (decide ('a' ≤ c) && decide (c ≤ 'f'))

/-- Builds the concatenation of `n` copies of a class (for `{7}`). -/
def reTimes (p : Char → Bool) : Nat → Re
  | 0 => .opt (.cls p)
  | 1 => .cls p
  | n + 2 => .seq (.cls p) (reTimes p (n + 1))

/-- The semver pattern of line 159:
`\d+\.\d+(\.\d+)?(\.\d+)?\+\d+g[0-9a-f]{7}`. -/
def semverRe : Re :=
  .seq (.rep isDigitChar)
    (.seq (.cls (fun c => c = '.'))
      (.seq (.rep isDigitChar)
        (.seq (.opt (.seq (.cls (fun c => c = '.')) (.rep isDigitChar)))
          (.seq (.opt (.seq (.cls (fun c => c = '.')) (.rep isDigitChar)))
            (.seq (.cls (fun c => c = '+'))
              (.seq (.rep isDigitChar)
                (.seq (.cls (fun c => c = 'g')) (reTimes isHexLower 7))))))))

/-! ### Python `json.dumps`

`get_artifacts_since` serializes a dict with `json.dumps` using the default
options (item separator `", "`, key separator `": "`, `ensure_ascii=True`).
The value domain needed by the code is strings, arrays and objects. -/

/-- JSON values built by the embedded code. -/
inductive JValue where
  | str (s : String)
  | arr (l : List JValue)
  | obj (l : List (String × JValue))

/-- Lowercase hex digit. -/
def hexChar (n : Nat) : Char :=
  if n < 10 then Char.ofNat (48 + n) else Char.ofNat (87 + n)

/-- Four lowercase hex digits (for `\uXXXX`). -/
def hex4 (n : Nat) : String :=
  String.mk [hexChar (n / 4096 % 16), hexChar (n / 256 % 16),
    hexChar (n / 16 % 16), hexChar (n % 16)]

/-- How `json.dumps` with `ensure_ascii=True` renders one character inside a
string literal: the two-character escapes for quote, backslash and the common
control characters, `\uXXXX` (with surrogate pairs above the BMP) for other
characters outside printable ASCII, and the character itself otherwise. -/
def pyJsonEscapeChar (c : Char) : String :=
  if c = '"' then "\\\""
  else if c = '\\' then "\\\\"
  else if c = Char.ofNat 8 then "\\b"
  else if c = Char.ofNat 9 then "\\t"
  else if c = Char.ofNat 10 then "\\n"
  else if c = Char.ofNat 12 then "\\f"
  else if c = Char.ofNat 13 then "\\r"
  else if c.toNat < 32 ∨ 126 < c.toNat then
    if c.toNat < 65536 then "\\u" ++ hex4 c.toNat
    else
      "\\u" ++ hex4 (55296 + (c.toNat - 65536) / 1024) ++
      "\\u" ++ hex4 (56320 + (c.toNat - 65536) % 1024)
  else String.mk [c]

def pyJsonEscape : List Char → String
  | [] => ""
  | c :: r => pyJsonEscapeChar c ++ pyJsonEscape r

/-- `json.dumps` of a string. -/
def jdumpStr (s : String) : String := "\"" ++ pyJsonEscape s.data ++ "\""

mutual

/-- `json.dumps` with default separators. -/
def jdump : JValue → String
  | .str s => jdumpStr s
  | .arr l => "[" ++ jdumpArr l ++ "]"
  | .obj l => "\x7b" ++ jdumpObj l ++ "\x7d"

def jdumpArr : List JValue → String
  | [] => ""
  | [v] => jdump v
  | v :: w :: r => jdump v ++ ", " ++ jdumpArr (w :: r)

def jdumpObj : List (String × JValue) → String
  | [] => ""
  | [(k, v)] => jdumpStr k ++ ": " ++ jdump v
  | (k, v) :: q :: r => jdumpStr k ++ ": " ++ jdump v ++ ", " ++ jdumpObj (q :: r)

end

/-- A character `json.dumps` copies through unescaped. -/
def jsonPlainChar (c : Char) : Bool := pyJsonEscapeChar c = String.mk [c]

/-- A string `json.dumps` renders as itself between quotes. -/
def jsonPlain (s : String) : Bool := s.data.all jsonPlainChar

/-! ### `datetime` -/

/-- The slice of `datetime.datetime` the code touches. -/
structure Datetime where
  year : Nat
  month : Nat
  day : Nat
  hour : Nat
  minute : Nat
  second : Nat
  microsecond : Nat
deriving DecidableEq

def pad2 (n : Nat) : String :=
  if n < 10 then "0" ++ toString n else toString n

def pad4 (n : Nat) : String :=
  if n < 10 then "000" ++ toString n
  else if n < 100 then "00" ++ toString n
  else if n < 1000 then "0" ++ toString n
  else toString n

def pad6 (n : Nat) : String :=
  if n < 10 then "00000" ++ toString n
  else if n < 100 then "0000" ++ toString n
  else if n < 1000 then "000" ++ toString n
  else if n < 10000 then "00" ++ toString n
  else if n < 100000 then "0" ++ toString n
  else toString n

/-- `datetime.isoformat()`: `YYYY-MM-DDTHH:MM:SS`, with a `.ffffff`
microsecond suffix only when the microsecond field is nonzero. -/
def Datetime.isoformat (d : Datetime) : String :=
  pad4 d.year ++ "-" ++ pad2 d.month ++ "-" ++ pad2 d.day ++ "T" ++
  pad2 d.hour ++ ":" ++ pad2 d.minute ++ ":" ++ pad2 d.second ++
  (if d.microsecond = 0 then "" else "." ++ pad6 d.microsecond)

/-! ### MD5 and SHA-1

`Api._hash_file` feeds a local file through `hashlib.md5()` and
`hashlib.sha1()` in 64 KiB chunks (lines 182-193).  `hashlib` is a Python
standard-library collaborator; the compression functions below are the
reference MD5 (RFC 1321) and SHA-1 (RFC 3174) algorithms, so the hex digests
computed here are the standard digests the claim speaks about.  Words are
`Nat`s reduced modulo `2 ^ 32` explicitly. -/

/-- Chunks of at most `n` elements, in order, as produced by repeatedly
calling `f.read(n)` until it returns empty; the fuel argument makes the
recursion structural. -/
def chunksFuel (n : Nat) : Nat → List Nat → List (List Nat)
  | 0, _ => []
  | _, [] => []
  | fuel + 1, l => l.take n :: chunksFuel n fuel (l.drop n)

/-- All `f.read(n)` results for a file holding `l`. -/
def readChunks (n : Nat) (l : List Nat) : List (List Nat) :=
  chunksFuel n l.length l

def w32 (n : Nat) : Nat := n % 4294967296

/-- Bitwise complement within 32 bits. -/
def not32 (x : Nat) : Nat := Nat.xor x 4294967295

/-- Left rotation of a 32-bit word by `s` places. -/
def rotl32 (x s : Nat) : Nat := w32 (x * 2 ^ s) + x / 2 ^ (32 - s)

/-- `k` bytes of `n`, little-endian. -/
def leBytes : Nat → Nat → List Nat
  | 0, _ => []
  | k + 1, n => n % 256 :: leBytes k (n / 256)

/-- `k` bytes of `n`, big-endian (taking `n < 256 ^ k`). -/
def beBytes : Nat → Nat → List Nat
  | 0, _ => []
  | k + 1, n => n / 256 ^ k % 256 :: beBytes k n

/-- Consecutive 4-byte groups as little-endian 32-bit words. -/
def leWords : List Nat → List Nat
  | b0 :: b1 :: b2 :: b3 :: r =>
    (b0 + 256 * b1 + 65536 * b2 + 16777216 * b3) :: leWords r
  | _ => []

/-- Consecutive 4-byte groups as big-endian 32-bit words. -/
def beWords : List Nat → List Nat
  | b0 :: b1 :: b2 :: b3 :: r =>
    (16777216 * b0 + 65536 * b1 + 256 * b2 + b3) :: beWords r
  | _ => []

/-- Merkle-Damgard padding: a `0x80` byte, zeros to 56 mod 64, then the
original bit length as 8 bytes (little-endian for MD5). -/
def md5Pad (msg : List Nat) : List Nat :=
  msg ++ [128] ++ List.replicate ((119 - msg.length % 64) % 64) 0 ++
    leBytes 8 (8 * msg.length)

/-- Same padding with the bit length big-endian, for SHA-1. -/
def sha1Pad (msg : List Nat) : List Nat :=
  msg ++ [128] ++ List.replicate ((119 - msg.length % 64) % 64) 0 ++
    beBytes 8 (8 * msg.length)

/-- The 64 MD5 sine-derived constants of RFC 1321. -/
def md5K : List Nat :=
  [0xd76aa478, 0xe8c7b756, 0x242070db, 0xc1bdceee,
   0xf57c0faf, 0x4787c62a, 0xa8304613, 0xfd469501,
   0x698098d8, 0x8b44f7af, 0xffff5bb1, 0x895cd7be,
   0x6b901122, 0xfd987193, 0xa679438e, 0x49b40821,
   0xf61e2562, 0xc040b340, 0x265e5a51, 0xe9b6c7aa,
   0xd62f105d, 0x02441453, 0xd8a1e681, 0xe7d3fbc8,
   0x21e1cde6, 0xc33707d6, 0xf4d50d87, 0x455a14ed,
   0xa9e3e905, 0xfcefa3f8, 0x676f02d9, 0x8d2a4c8a,
   0xfffa3942, 0x8771f681, 0x6d9d6122, 0xfde5380c,
   0xa4beea44, 0x4bdecfa9, 0xf6bb4b60, 0xbebfbc70,
   0x289b7ec6, 0xeaa127fa, 0xd4ef3085, 0x04881d05,
   0xd9d4d039, 0xe6db99e5, 0x1fa27cf8, 0xc4ac5665,
   0xf4292244, 0x432aff97, 0xab9423a7, 0xfc93a039,
   0x655b59c3, 0x8f0ccc92, 0xffeff47d, 0x85845dd1,
   0x6fa87e4f, 0xfe2ce6e0, 0xa3014314, 0x4e0811a1,
   0xf7537e82, 0xbd3af235, 0x2ad7d2bb, 0xeb86d391]

/-- The MD5 per-round left-rotation amounts. -/
def md5S : List Nat :=
  [7, 12, 17, 22, 7, 12, 17, 22, 7, 12, 17, 22, 7, 12, 17, 22,
   5, 9, 14, 20, 5, 9, 14, 20, 5, 9, 14, 20, 5, 9, 14, 20,
   4, 11, 16, 23, 4, 11, 16, 23, 4, 11, 16, 23, 4, 11, 16, 23,
   6, 10, 15, 21, 6, 10, 15, 21, 6, 10, 15, 21, 6, 10, 15, 21]

/-- The MD5 round functions F, G, H, I by round index. -/
def md5F (i b c d : Nat) : Nat :=
  if i < 16 then Nat.lor (Nat.land b c) (Nat.land (not32 b) d)
  else if i < 32 then Nat.lor (Nat.land d b) (Nat.land (not32 d) c)
  else if i < 48 then Nat.xor b (Nat.xor c d)
  else Nat.xor c (Nat.lor b (not32 d))

/-- The MD5 message-word index by round index. -/
def md5G (i : Nat) : Nat :=
  if i < 16 then i
  else if i < 32 then (5 * i + 1) % 16
  else if i < 48 then (3 * i + 5) % 16
  else (7 * i) % 16

def md5Step (m : List Nat) (st : Nat × Nat × Nat × Nat) (i : Nat) :
    Nat × Nat × Nat × Nat :=
  match st with
  | (a, b, c, d) =>
    let f := w32 (a + md5F i b c d + md5K.getD i 0 + m.getD (md5G i) 0)
    (d, w32 (b + rotl32 f (md5S.getD i 0)), b, c)

def md5Block (st : Nat × Nat × Nat × Nat) (block : List Nat) :
    Nat × Nat × Nat × Nat :=
  match (List.range 64).foldl (md5Step (leWords block)) st, st with
  | (a, b, c, d), (a0, b0, c0, d0) =>
    (w32 (a0 + a), w32 (b0 + b), w32 (c0 + c), w32 (d0 + d))

/-- The 16-byte MD5 digest of a byte sequence. -/
def md5Bytes (msg : List Nat) : List Nat :=
  match (readChunks 64 (md5Pad msg)).foldl md5Block
      (0x67452301, 0xefcdab89, 0x98badcfe, 0x10325476) with
  | (a, b, c, d) => leBytes 4 a ++ leBytes 4 b ++ leBytes 4 c ++ leBytes 4 d

def byteHexChars (b : Nat) : List Char := [hexChar (b / 16), hexChar (b % 16)]

/-- Lowercase hex rendering of a byte sequence, as `hexdigest()` returns. -/
def bytesHex (l : List Nat) : String := String.mk (l.flatMap byteHexChars)

/-- `hashlib.md5(msg).hexdigest()`. -/
def md5Hex (msg : List Nat) : String := bytesHex (md5Bytes msg)

/-- One step of the SHA-1 message-schedule extension: appends
`rotl1 (w[t-3] xor w[t-8] xor w[t-14] xor w[t-16])` at the current end. -/
def sha1ExtendOnce (ws : List Nat) : List Nat :=
  ws ++ [rotl32 (Nat.xor (ws.getD (ws.length - 3) 0)
    (Nat.xor (ws.getD (ws.length - 8) 0)
      (Nat.xor (ws.getD (ws.length - 14) 0) (ws.getD (ws.length - 16) 0)))) 1]

/-- The 80-word SHA-1 message schedule of one 64-byte block. -/
def sha1Schedule (block : List Nat) : List Nat :=
  (List.range 64).foldl (fun ws _ => sha1ExtendOnce ws) (beWords block)

/-- The SHA-1 round functions Ch, Parity, Maj, Parity by round index. -/
def sha1F (t b c d : Nat) : Nat :=
  if t < 20 then Nat.lor (Nat.land b c) (Nat.land (not32 b) d)
  else if t < 40 then Nat.xor b (Nat.xor c d)
  else if t < 60 then
    Nat.lor (Nat.lor (Nat.land b c) (Nat.land b d)) (Nat.land c d)
  else Nat.xor b (Nat.xor c d)

def sha1KConst (t : Nat) : Nat :=
  if t < 20 then 0x5a827999
  else if t < 40 then 0x6ed9eba1
  else if t < 60 then 0x8f1bbcdc
  else 0xca62c1d6

def sha1Step (w : List Nat) (st : Nat × Nat × Nat × Nat × Nat) (t : Nat) :
    Nat × Nat × Nat × Nat × Nat :=
  match st with
  | (a, b, c, d, e) =>
    (w32 (rotl32 a 5 + sha1F t b c d + e + sha1KConst t + w.getD t 0),
     a, rotl32 b 30, c, d)

def sha1Block (st : Nat × Nat × Nat × Nat × Nat) (block : List Nat) :
    Nat × Nat × Nat × Nat × Nat :=
  match (List.range 80).foldl (sha1Step (sha1Schedule block)) st, st with
  | (a, b, c, d, e), (a0, b0, c0, d0, e0) =>
    (w32 (a0 + a), w32 (b0 + b), w32 (c0 + c), w32 (d0 + d), w32 (e0 + e))

/-- The 20-byte SHA-1 digest of a byte sequence. -/
def sha1Bytes (msg : List Nat) : List Nat :=
  match (readChunks 64 (sha1Pad msg)).foldl sha1Block
      (0x67452301, 0xefcdab89, 0x98badcfe, 0x10325476, 0xc3d2e1f0) with
  | (a, b, c, d, e) =>
    beBytes 4 a ++ beBytes 4 b ++ beBytes 4 c ++ beBytes 4 d ++ beBytes 4 e

/-- `hashlib.sha1(msg).hexdigest()`. -/
def sha1Hex (msg : List Nat) : String := bytesHex (sha1Bytes msg)

/-- A `hashlib` hash object at the observable level: the bytes fed so far.
`hashlib`'s documented contract is that `update(a); update(b)` is equivalent
to `update(a + b)` and that the digest is the hash of everything fed. -/
structure HashlibState where
  fed : List Nat
deriving DecidableEq

/-- `h.update(data)`. -/
def HashlibState.update (st : HashlibState) (data : List Nat) : HashlibState :=
  ⟨st.fed ++ data⟩

/-- `hashlib.md5().hexdigest()` after the updates recorded in `st`. -/
def HashlibState.md5_hexdigest (st : HashlibState) : String := md5Hex st.fed

/-- `hashlib.sha1().hexdigest()` after the updates recorded in `st`. -/
def HashlibState.sha1_hexdigest (st : HashlibState) : String := sha1Hex st.fed

/-! ### The `Api` gateway -/

/-- An argument passed where the gateway expects an `Artifact`.  `pyNone`
stands for a concrete non-`Artifact` Python value (`None`), which has none of
the attributes the gateway touches, so attribute access on it raises
`AttributeError`. -/
inductive ArtifactArg where
  | art (a : Artifact)
  | pyNone
deriving DecidableEq, Repr

/-- An HTTP request as handed to the `requests` collaborator.  `body_text` is
a `data=` string payload (the AQL query), `body_bytes` a raw file payload
(the published artifact). -/
structure HttpRequest where
  method : String
  url : String
  headers : List (String × String)
  body_text : Option String
  body_bytes : Option (List Nat)
deriving DecidableEq, Repr

/-- An HTTP response from the `requests` collaborator: `text` is the decoded
body, `content` the raw body bytes. -/
structure Response where
  status_code : Nat
  text : String
  content : List Nat
deriving DecidableEq, Repr

/-- The `ApiReturn` namedtuple as `download_artifact` produces it: the status
code with either the raw text body (`some`) or the `None` payload of a
successful download (`none`). -/
structure ApiReturn where
  status_code : Nat
  data : Option String
deriving DecidableEq, Repr

/-- The `HashReturn` namedtuple (line 17). -/
structure HashReturn where
  md5 : String
  sha1 : String
deriving DecidableEq, Repr

/-- `Api` configuration (lines 117-123): the base url with surrounding
slashes stripped, and the api key. -/
structure Api where
  base_url : String
  api_key : String
deriving DecidableEq, Repr

/-- `Api.__init__(base_url, api_key)`: `self._base_url = base_url.strip('/')`. -/
def Api.init (base_url api_key : String) : Api :=
  { base_url := pyStripChar '/' base_url, api_key := api_key }

/-- `self._api_url = self._base_url + '/' + 'api'`. -/
def Api.api_url (api : Api) : String := api.base_url ++ "/" ++ "api"

/-- `self._headers = {'X-JFrog-Art-Api': self._api_key}`. -/
def Api.headers (api : Api) : List (String × String) :=
  [("X-JFrog-Art-Api", api.api_key)]

/-- `Api.get_latest_version(artifact)` (lines 125-134) up to the HTTP call:
the `isinstance` guard, then the GET request it issues.  The response is
mapped 1:1 to `ApiReturn(status, text)`, which carries no further logic. -/
def Api.get_latest_version (api : Api) (artifact : ArtifactArg) :
    Except ApiErr HttpRequest :=
  match artifact with
  | .pyNone =>
    .error (.artifactApiError "The artifact parameter must be of type Artifact")
  | .art a =>
    .ok { method := "GET"
          url := api.api_url ++ "/search/latestVersion?g=" ++ a.group_id ++
            "&a=" ++ a.artifact_id ++ "&repos=" ++ a.repo ++ "&remote=" ++
            pyIntOfBool a.remote ++ "&v=" ++ pyOrStr a.version "" ++ "*"
          headers := api.headers
          body_text := none
          body_bytes := none }

/-- `Api.search_artifacts(name, repos)` (lines 136-140) up to the HTTP call. -/
def Api.search_artifacts (api : Api) (nm repos : String) : HttpRequest :=
  { method := "GET"
    url := api.api_url ++ "/search/artifact?name=" ++ nm ++ "&repos=" ++ repos
    headers := api.headers
    body_text := none
    body_bytes := none }

/-- A property value inside the metadata JSON: Artifactory properties are
arrays of strings, but the `sem_version` assignment stores a bare string, and
the fallback `artifact.version` could in principle store `None`. -/
inductive PropVal where
  | strs (l : List String)
  | str (s : String)
  | pyNone
deriving DecidableEq, Repr

/-- The parsed metadata response body: `json_response` either lacks the
`'properties'` key or carries a dict of properties. -/
structure MetaJson where
  properties : Option (List (String × PropVal))
deriving DecidableEq, Repr

/-- Python `v[0]` on a property value: first element of a list (IndexError
when empty), first character of a string (its own one-character string),
TypeError on `None`. -/
def pyIndex0 : PropVal → Except ApiErr String
  | .strs (d :: _) => .ok d
  | .strs [] => .error .indexError
  | .str s =>
    match s.data with
    | c :: _ => .ok (String.mk [c])
    | [] => .error .indexError
  | .pyNone => .error .typeError

/-- Python dict assignment `d[k] = v` on an association list: replace in
place when the key exists, append otherwise. -/
def dictSet (l : List (String × PropVal)) (k : String) (v : PropVal) :
    List (String × PropVal) :=
  if (l.lookup k).isSome then
    l.map (fun q => if q.1 = k then (k, v) else q)
  else l ++ [(k, v)]

/-- `Api.get_artifact_metadata(artifact)` (lines 142-166): the `isinstance`
guard, the metadata URL `artifact.get_url(api_url + '/storage') + '?properties'`
(where `get_url` can itself raise), then the response post-processing: pass
the body through unless it has `properties` holding a `nuget.description`
entry, in which case store under `nuget.sem_version` the leftmost
`re.search` match of the semver pattern in the description, or the artifact's
own `version` when there is no match.  The transport is the oracle `http`. -/
def Api.get_artifact_metadata (api : Api) (artifact : ArtifactArg)
    (http : String → Nat × MetaJson) : Except ApiErr (Nat × MetaJson) :=
  match artifact with
  | .pyNone =>
    .error (.artifactApiError "The artifact parameter must be of type Artifact")
  | .art a =>
    match a.get_url (api.api_url ++ "/storage") with
    | .error e => .error e
    | .ok u =>
      let metadata_url := u ++ "?properties"
      let (status_code, json_response) := http metadata_url
      match json_response.properties with
      | none => .ok (status_code, json_response)
      | some properties =>
        match properties.lookup "nuget.description" with
        | none => .ok (status_code, json_response)
        | some dv =>
          match pyIndex0 dv with
          | .error e => .error e
          | .ok nuget_description =>
            let stored : PropVal :=
              match reSearch semverRe nuget_description with
              | some m => .str m
              | none =>
                match a.version with
                | some v => .str v
                | none => .pyNone
            .ok (status_code,
              ⟨some (dictSet properties "nuget.sem_version" stored)⟩)

/-- `Api.download_artifact(artifact, dest)` (lines 168-180): the `isinstance`
guard, `artifact.get_url(base_url)` (which can raise), one GET through the
`http` oracle; on a non-200 status return `(status, text)` leaving the
filesystem untouched, otherwise write `response.content` to `dest`
(overwriting) and return `(status, None)`. -/
def Api.download_artifact (api : Api) (artifact : ArtifactArg) (dest : String)
    (http : String → Response) (fs : String → Option (List Nat)) :
    Except ApiErr (ApiReturn × (String → Option (List Nat))) :=
  match artifact with
  | .pyNone =>
    .error (.artifactApiError "The artifact parameter must be of type Artifact")
  | .art a =>
    match a.get_url api.base_url with
    | .error e => .error e
    | .ok url =>
      let response := http url
      if response.status_code ≠ 200 then
        .ok (⟨response.status_code, some response.text⟩, fs)
      else
        .ok (⟨response.status_code, none⟩,
          fun p => if p = dest then some response.content else fs p)

/-- `Api._hash_file(filename)` (lines 182-193): one pass over the file in
64 KiB (`65536`-byte) reads, feeding each chunk to both hash objects, then
both hex digests. -/
def Api.hash_file (content : List Nat) : HashReturn :=
  let final : HashlibState × HashlibState := (readChunks 65536 content).foldl
    (fun st data => (st.1.update data, st.2.update data))
    (⟨[]⟩, ⟨[]⟩)
  ⟨final.1.md5_hexdigest, final.2.sha1_hexdigest⟩

/-- `Api.publish_artifact(artifact, src)` (lines 195-205) up to the HTTP
call.  There is no `isinstance` guard: the file at `src` is hashed first, and
a non-`Artifact` argument only fails afterwards, with `AttributeError` at
`artifact.get_url`.  On an `Artifact` the PUT carries the api key and both
checksum headers and the file bytes as body. -/
def Api.publish_artifact (api : Api) (artifact : ArtifactArg)
    (src_content : List Nat) : Except ApiErr HttpRequest :=
  let file_hash := Api.hash_file src_content
  match artifact with
  | .pyNone => .error .attributeError
  | .art a =>
    match a.get_url api.base_url with
    | .error e => .error e
    | .ok url =>
      .ok { method := "PUT"
            url := url
            headers := [("X-JFrog-Art-Api", api.api_key),
              ("X-Checksum-Sha1", file_hash.sha1),
              ("X-Checksum-MD5", file_hash.md5)]
            body_text := none
            body_bytes := some src_content }

/-- `Api.get_artifacts_since(repo, since, additional_props=None)`
(lines 207-220) up to the HTTP call: the AQL body is
`items.find(json.dumps(body))` for the dict
`repo == repo AND modified > since.isoformat()`, with
`.include("p1","p2",...)` appended when `additional_props` is truthy, POSTed
to `api_url + '/search/aql'`. -/
def Api.get_artifacts_since (api : Api) (repo : String) (since : Datetime)
    (additional_props : Option (List String)) : HttpRequest :=
  let body := JValue.obj [("$and", JValue.arr
    [JValue.obj [("repo", JValue.obj [("$eq", JValue.str repo)])],
     JValue.obj [("modified", JValue.obj [("$gt",
       JValue.str since.isoformat)])]])]
  let bodyStr := "items.find(" ++ jdump body ++ ")"
  let bodyStr :=
    match additional_props with
    | some (q :: r) =>
      bodyStr ++ ".include(\"" ++ String.intercalate "\",\"" (q :: r) ++ "\")"
    | _ => bodyStr
  { method := "POST"
    url := api.api_url ++ "/search/aql"
    headers := api.headers
    body_text := some bodyStr
    body_bytes := none }

/-- `Api.copy_artifact(artifact, dest_repo)` (lines 222-229) up to the HTTP
call.  No `isinstance` guard: `artifact.group_id` on a non-`Artifact` raises
`AttributeError`.  The `to` path is formatted from the destination repo and
the artifact's own group id, artifact id, `version_separator` property,
version and extension; the source path is `artifact.get_url(api_url +
'/copy')`; the POST goes to `source + '?to=' + to`. -/
def Api.copy_artifact (api : Api) (artifact : ArtifactArg)
    (dest_repo : String) : Except ApiErr HttpRequest :=
  match artifact with
  | .pyNone => .error .attributeError
  | .art a =>
    let to_url_part := "/" ++ dest_repo ++ "/" ++ a.group_id ++ "/" ++
      a.artifact_id ++ "/" ++ a.artifact_id ++ a.version_separator ++
      pyStrOpt a.version ++ "." ++ a.extension
    match a.get_url (api.api_url ++ "/copy") with
    | .error e => .error e
    | .ok from_url_part =>
      .ok { method := "POST"
            url := from_url_part ++ "?to=" ++ to_url_part
            headers := api.headers
            body_text := none
            body_bytes := none }

/-! ## Supporting lemmas -/

/-- MD5 reference check, RFC 1321 test suite: the empty message. -/
theorem md5Hex_empty_vector : md5Hex [] = "d41d8cd98f00b204e9800998ecf8427e" := by
  decide

/-- MD5 reference check, RFC 1321 test suite: the bytes of `abc`. -/
theorem md5Hex_abc_vector :
    md5Hex [97, 98, 99] = "900150983cd24fb0d6963f7d28e17f72" := by
  decide

/-- SHA-1 reference check, RFC 3174 test suite: the empty message. -/
theorem sha1Hex_empty_vector :
    sha1Hex [] = "da39a3ee5e6b4b0d3255bfef95601890afd80709" := by
  decide

/-- SHA-1 reference check, RFC 3174 test suite: the bytes of `abc`. -/
theorem sha1Hex_abc_vector :
    sha1Hex [97, 98, 99] = "a9993e364706816aba3e25717850c26c9cd0d89d" := by
  decide

/-- Joining the chunks of a read loop recovers the content. -/
theorem chunksFuel_join (n : Nat) (hn : 1 ≤ n) :
    ∀ fuel l, List.length l ≤ fuel → (chunksFuel n fuel l).flatten = l := by
  intro fuel
  induction fuel with
  | zero =>
    intro l hl
    rw [List.length_eq_zero.mp (Nat.le_zero.mp hl)]
    rfl
  | succ f ih =>
    intro l hl
    match l with
    | [] => rfl
    | c :: r =>
      have hdrop : List.length ((c :: r).drop n) ≤ f := by
        rw [List.length_drop]
        omega
      calc (chunksFuel n (f + 1) (c :: r)).flatten
          = (c :: r).take n ++ (chunksFuel n f ((c :: r).drop n)).flatten := rfl
        _ = (c :: r).take n ++ (c :: r).drop n := by rw [ih _ hdrop]
        _ = c :: r := List.take_append_drop n (c :: r)

/-- Joining the 64 KiB read chunks of `_hash_file` recovers the content. -/
theorem readChunks_join (n : Nat) (hn : 1 ≤ n) (l : List Nat) :
    (readChunks n l).flatten = l :=
  chunksFuel_join n hn l.length l (Nat.le_refl _)

/-- A hash object fed a sequence of chunks has accumulated exactly their
concatenation. -/
theorem foldl_update_fed (chunks : List (List Nat)) :
    ∀ st : HashlibState,
      (chunks.foldl HashlibState.update st).fed = st.fed ++ chunks.flatten := by
  induction chunks with
  | nil => intro st; simp
  | cons c r ih =>
    intro st
    simp [HashlibState.update, ih, List.append_assoc]

/-- Two hash objects fed the same chunks in one loop accumulate the same
concatenation. -/
theorem foldl_update_pair_fed (chunks : List (List Nat))
    (st : HashlibState × HashlibState) :
    chunks.foldl (fun st data => (st.1.update data, st.2.update data)) st =
      (⟨st.1.fed ++ chunks.flatten⟩, ⟨st.2.fed ++ chunks.flatten⟩) := by
  induction chunks generalizing st with
  | nil => simp
  | cons c r ih =>
    rw [List.foldl_cons, ih]
    simp [HashlibState.update, List.append_assoc]

/-- Appending strings appends their character data. -/
theorem strData_append (s t : String) : (s ++ t).data = s.data ++ t.data := by
  cases s
  cases t
  rfl

/-- Strings with equal character data are equal. -/
theorem strExt (s t : String) (h : s.data = t.data) : s = t :=
  congrArg String.mk h

/-- Characters that `json.dumps` leaves alone serialize to themselves. -/
theorem pyJsonEscape_plain (l : List Char) (h : l.all jsonPlainChar = true) :
    pyJsonEscape l = String.mk l := by
  induction l with
  | nil => rfl
  | cons c r ih =>
    rw [List.all_cons, Bool.and_eq_true] at h
    have hc : pyJsonEscapeChar c = String.mk [c] := by
      have := h.1
      rwa [jsonPlainChar, decide_eq_true_eq] at this
    show pyJsonEscapeChar c ++ pyJsonEscape r = String.mk (c :: r)
    rw [hc, ih h.2]
    rfl

/-- `json.dumps` of a string with no characters to escape is the string in
quotes. -/
theorem jdumpStr_plain (s : String) (h : jsonPlain s = true) :
    jdumpStr s = "\"" ++ s ++ "\"" := by
  rw [jdumpStr, pyJsonEscape_plain s.data h]

/-! ## Claims -/

/-- Claim C1 (code bug, evaluated at the failing input): for the nupkg
artifact `app` in group `com.example`, repo `libs`, version `1.0.0`,
`get_url('https://host')` returns
`https://host/libs/com.example/app/app1.0.0.nupkg` — the filename segment is
`app1.0.0.nupkg` with no separator at all, because the `version_separator`
property read by `get_url` is shadowed into returning the `subpath` field
(empty by default), not the separator derived at construction.  The claim
(and the spec) expect `app.1.0.0.nupkg` in that position. -/
theorem c1_get_url_separator_bug :
    ((Artifact.init "app" "com.example" "libs" (some "nupkg")
      none).set_version "1.0.0").get_url "https://host" =
      .ok "https://host/libs/com.example/app/app1.0.0.nupkg" ∧
    ("https://host/libs/com.example/app/app1.0.0.nupkg" : String) ≠
      "https://host/libs/com.example/app/app.1.0.0.nupkg" :=
  ⟨rfl, by decide⟩

/-- Claim C2 (code bug, evaluated at the failing input): for a freshly
constructed nupkg artifact the constructor does derive `'.'` into
`_id_version_seperator`, but the `version_separator` property observed by URL
construction reads the `subpath` field and returns `''`, not `'.'` — the
derived value is never observed. -/
theorem c2_version_separator_bug :
    (Artifact.init "app" "com.example" "libs" (some "nupkg")
      none).version_separator = "" ∧
    (Artifact.init "app" "com.example" "libs" (some "nupkg")
      none).id_version_seperator = "." ∧
    ("" : String) ≠ "." :=
  ⟨rfl, rfl, by decide⟩

/-- Claim C4, counterexample: `publish_artifact` and `copy_artifact` do not
validate their `artifact` argument — called with the non-`Artifact` value
`None` they fail with `AttributeError` at the first attribute access, not
with the `ArtifactApiError` type guard the claim requires of every gateway
operation. -/
theorem c4_type_guard_counterexample :
    Api.publish_artifact (Api.init "http://h" "k") .pyNone [] ≠
      .error (.artifactApiError
        "The artifact parameter must be of type Artifact") ∧
    Api.copy_artifact (Api.init "http://h" "k") .pyNone "r2" ≠
      .error (.artifactApiError
        "The artifact parameter must be of type Artifact") := by
  constructor <;> simp [Api.publish_artifact, Api.copy_artifact]

/-- Claim C4, amended: `get_latest_version`, `get_artifact_metadata` and
`download_artifact` validate the `artifact` argument and fail fast with the
`ArtifactApiError` type guard before building any request; `publish_artifact`
and `copy_artifact` perform no type validation, and a non-`Artifact` argument
surfaces as an `AttributeError` when its attributes are first accessed. -/
theorem c4_type_guard_amended (api : Api) (dest dest_repo : String)
    (http : String → Response) (mhttp : String → Nat × MetaJson)
    (fs : String → Option (List Nat)) (content : List Nat) :
    Api.get_latest_version api .pyNone =
      .error (.artifactApiError
        "The artifact parameter must be of type Artifact") ∧
    Api.get_artifact_metadata api .pyNone mhttp =
      .error (.artifactApiError
        "The artifact parameter must be of type Artifact") ∧
    Api.download_artifact api .pyNone dest http fs =
      .error (.artifactApiError
        "The artifact parameter must be of type Artifact") ∧
    Api.publish_artifact api .pyNone content = .error .attributeError ∧
    Api.copy_artifact api .pyNone dest_repo = .error .attributeError :=
  ⟨rfl, rfl, rfl, rfl, rfl⟩

/-- Claim C9 (confirmed): for every artifact, `get_latest_version` issues a
GET whose query always carries `g=group_id`, `a=artifact_id`, `repos=repo`
and `remote=` the remote flag as 0/1, followed by the version slot
`&v=<slot>*` where the slot is `artifact.version or ''`; the slot is the
version hint itself whenever a hint is present (so the filter is the
wildcard prefix match `v=<version>*`), and empty (`v=*`) when no hint is
set. -/
theorem c9_latest_version_url (api : Api) (a : Artifact) :
    Api.get_latest_version api (.art a) =
      .ok { method := "GET"
            url := api.api_url ++ "/search/latestVersion?g=" ++ a.group_id ++
              "&a=" ++ a.artifact_id ++ "&repos=" ++ a.repo ++ "&remote=" ++
              (if a.remote then "1" else "0") ++ "&v=" ++
              pyOrStr a.version "" ++ "*"
            headers := api.headers
            body_text := none
            body_bytes := none } ∧
    (∀ v, a.version = some v → v ≠ "" → pyOrStr a.version "" = v) ∧
    (a.version = none → pyOrStr a.version "" = "") := by
  refine ⟨?_, fun v hv hvne => ?_, fun hn => ?_⟩
  · simp [Api.get_latest_version, pyIntOfBool]
  · simp [pyOrStr, truthyOpt, hv, hvne]
  · simp [pyOrStr, truthyOpt, hn]

/-- Claim C9, witness: a concrete artifact with version hint `2` (the slot is
`2`, giving the wildcard filter `v=2*`) and a concrete artifact with no hint
(the slot is empty). -/
theorem c9_latest_version_url_witness :
    Api.get_latest_version (Api.init "http://h/" "key")
      (.art ((Artifact.init "lib" "com.example" "repo1" (some "jar")
        none).set_version "2")) =
      .ok { method := "GET"
            url := (Api.init "http://h/" "key").api_url ++
              "/search/latestVersion?g=" ++ "com.example" ++ "&a=" ++ "lib" ++
              "&repos=" ++ "repo1" ++ "&remote=" ++ (if true then "1" else "0")
              ++ "&v=" ++ pyOrStr ((Artifact.init "lib" "com.example" "repo1"
                (some "jar") none).set_version "2").version "" ++ "*"
            headers := (Api.init "http://h/" "key").headers
            body_text := none
            body_bytes := none } ∧
    ((Artifact.init "lib" "com.example" "repo1" (some "jar")
      none).set_version "2").version = some "2" ∧
    ("2" : String) ≠ "" ∧
    pyOrStr ((Artifact.init "lib" "com.example" "repo1" (some "jar")
      none).set_version "2").version "" = "2" ∧
    Api.get_latest_version (Api.init "http://h/" "key")
      (.art (Artifact.init "lib" "com.example" "repo1" (some "jar") none)) =
      .ok { method := "GET"
            url := (Api.init "http://h/" "key").api_url ++
              "/search/latestVersion?g=" ++ "com.example" ++ "&a=" ++ "lib" ++
              "&repos=" ++ "repo1" ++ "&remote=" ++ (if true then "1" else "0")
              ++ "&v=" ++ pyOrStr (Artifact.init "lib" "com.example" "repo1"
                (some "jar") none).version "" ++ "*"
            headers := (Api.init "http://h/" "key").headers
            body_text := none
            body_bytes := none } ∧
    (Artifact.init "lib" "com.example" "repo1" (some "jar") none).version =
      none ∧
    pyOrStr (Artifact.init "lib" "com.example" "repo1" (some "jar")
      none).version "" = "" :=
  ⟨(c9_latest_version_url (Api.init "http://h/" "key")
      ((Artifact.init "lib" "com.example" "repo1" (some "jar")
        none).set_version "2")).1,
   rfl, by decide,
   (c9_latest_version_url (Api.init "http://h/" "key")
      ((Artifact.init "lib" "com.example" "repo1" (some "jar")
        none).set_version "2")).2.1 "2" rfl (by decide),
   (c9_latest_version_url (Api.init "http://h/" "key")
      (Artifact.init "lib" "com.example" "repo1" (some "jar") none)).1,
   rfl,
   (c9_latest_version_url (Api.init "http://h/" "key")
      (Artifact.init "lib" "com.example" "repo1" (some "jar") none)).2.2
     rfl⟩

/-- Claim C10 (confirmed): an empty-string `version` or `extension` —
including the constructor default that stores a missing extension as `''` —
makes `get_url` and `name` raise exactly the `ArtifactApiError` used for
unset fields: the use-time precondition is non-emptiness, not assignment. -/
theorem c10_empty_fields_error (a : Artifact) (base : String)
    (h : a.version = none ∨ a.version = some "" ∨ a.extension = "") :
    a.get_url base =
      .error (.artifactApiError
        "version and extension must be specified to get the path") ∧
    a.name =
      .error (.artifactApiError
        "version and extension must be specified to get the name") := by
  have hfalsy : ¬ truthyOpt a.version = true ∨ a.extension = "" := by
    rcases h with h | h | h
    · left; simp [truthyOpt, h]
    · left; simp [truthyOpt, h]
    · right; exact h
  rw [Artifact.get_url, Artifact.name, if_pos hfalsy, if_pos hfalsy]
  exact ⟨rfl, rfl⟩

/-- Claim C10, witness: an artifact built without an extension (stored as
`''`) and with version assigned the empty string. -/
theorem c10_empty_fields_error_witness :
    (((Artifact.init "app" "g" "r" none none).set_version "").version = none ∨
     ((Artifact.init "app" "g" "r" none none).set_version "").version =
       some "" ∨
     ((Artifact.init "app" "g" "r" none none).set_version "").extension
       = "") ∧
    (((Artifact.init "app" "g" "r" none none).set_version "").get_url
      "http://h" =
      .error (.artifactApiError
        "version and extension must be specified to get the path") ∧
     ((Artifact.init "app" "g" "r" none none).set_version "").name =
      .error (.artifactApiError
        "version and extension must be specified to get the name")) :=
  ⟨by decide,
    c10_empty_fields_error ((Artifact.init "app" "g" "r" none none).set_version
      "") "http://h" (by decide)⟩

/-- Claim C5 (confirmed): once `download_artifact` has resolved the artifact
URL, a non-200 response is returned as `(status, text)` with the destination
file left untouched (the returned filesystem is the input one), while a 200
response returns `(200, None)` and a filesystem holding the response bytes at
`dest` and unchanged everywhere else — the body is written exactly once,
overwriting `dest`. -/
theorem c5_download_frame (api : Api) (a : Artifact) (dest : String)
    (http : String → Response) (fs : String → Option (List Nat)) (url : String)
    (hurl : a.get_url api.base_url = .ok url) :
    ((http url).status_code ≠ 200 →
      Api.download_artifact api (.art a) dest http fs =
        .ok (⟨(http url).status_code, some (http url).text⟩, fs)) ∧
    ((http url).status_code = 200 →
      ∃ fs2, Api.download_artifact api (.art a) dest http fs =
          .ok (⟨200, none⟩, fs2) ∧
        fs2 dest = some (http url).content ∧
        ∀ p, p ≠ dest → fs2 p = fs p) := by
  rw [Api.download_artifact, hurl]
  constructor
  · intro h
    simp only [if_pos h]
  · intro h
    refine ⟨fun p => if p = dest then some (http url).content else fs p,
      ?_, ?_, ?_⟩
    · simp only [h, ne_eq, not_true_eq_false, if_neg, ite_false]
    · exact if_pos rfl
    · intro p hp
      exact if_neg hp

/-- Claim C5, witness: a 404 response for a concrete artifact leaves the
filesystem unchanged. -/
theorem c5_download_frame_witness :
    ((Artifact.init "a" "g" "r" (some "zip") none).set_version "1").get_url
      (Api.init "http://h/" "k").base_url = .ok "http://h/r/g/a/a1.zip" ∧
    (((fun _ => ⟨404, "not found", []⟩ : String → Response)
        "http://h/r/g/a/a1.zip").status_code ≠ 200 →
      Api.download_artifact (Api.init "http://h/" "k")
        (.art ((Artifact.init "a" "g" "r" (some "zip") none).set_version "1"))
        "out.zip" (fun _ => ⟨404, "not found", []⟩) (fun _ => none) =
        .ok (⟨((fun _ => ⟨404, "not found", []⟩ : String → Response)
            "http://h/r/g/a/a1.zip").status_code,
          some ((fun _ => ⟨404, "not found", []⟩ : String → Response)
            "http://h/r/g/a/a1.zip").text⟩, fun _ => none)) ∧
    (((fun _ => ⟨404, "not found", []⟩ : String → Response)
        "http://h/r/g/a/a1.zip").status_code = 200 →
      ∃ fs2, Api.download_artifact (Api.init "http://h/" "k")
          (.art ((Artifact.init "a" "g" "r" (some "zip") none).set_version
            "1"))
          "out.zip" (fun _ => ⟨404, "not found", []⟩) (fun _ => none) =
          .ok (⟨200, none⟩, fs2) ∧
        fs2 "out.zip" = some ((fun _ => ⟨404, "not found", []⟩ :
          String → Response) "http://h/r/g/a/a1.zip").content ∧
        ∀ p, p ≠ "out.zip" → fs2 p = (fun _ => none : String →
          Option (List Nat)) p) :=
  ⟨rfl,
    (c5_download_frame (Api.init "http://h/" "k")
      ((Artifact.init "a" "g" "r" (some "zip") none).set_version "1")
      "out.zip" (fun _ => ⟨404, "not found", []⟩) (fun _ => none)
      "http://h/r/g/a/a1.zip" rfl).1,
    (c5_download_frame (Api.init "http://h/" "k")
      ((Artifact.init "a" "g" "r" (some "zip") none).set_version "1")
      "out.zip" (fun _ => ⟨404, "not found", []⟩) (fun _ => none)
      "http://h/r/g/a/a1.zip" rfl).2⟩

/-- Claim C7 (confirmed): for an artifact with version and extension set,
`copy_artifact` POSTs to the copy API under the artifact's own source path
(`artifact.get_url` rooted at `api_url + '/copy'`) and passes as the `?to=`
query parameter a destination path built from the destination repo together
with the artifact's own group id, artifact id, `version_separator` property,
version and extension:
`/dest_repo/group_id/artifact_id/artifact_id<sep>version.extension`. -/
theorem c7_copy_dest_path (api : Api) (a : Artifact) (dest_repo v : String)
    (hv : a.version = some v) (hvne : v ≠ "") (he : a.extension ≠ "") :
    ∃ src_url, a.get_url (api.api_url ++ "/copy") = .ok src_url ∧
      Api.copy_artifact api (.art a) dest_repo =
        .ok { method := "POST"
              url := src_url ++ "?to=" ++
                ("/" ++ dest_repo ++ "/" ++ a.group_id ++ "/" ++
                  a.artifact_id ++ "/" ++ a.artifact_id ++
                  a.version_separator ++ v ++ "." ++ a.extension)
              headers := api.headers
              body_text := none
              body_bytes := none } := by
  have htr : truthyOpt a.version = true := by simp [truthyOpt, hv, hvne]
  obtain ⟨src, hsrc⟩ : ∃ s, a.get_url (api.api_url ++ "/copy") = .ok s := by
    rw [Artifact.get_url, if_neg (by simp [htr, he])]
    exact ⟨_, rfl⟩
  refine ⟨src, hsrc, ?_⟩
  rw [Api.copy_artifact, hsrc]
  simp [hv, pyStrOpt]

/-- Claim C7, witness at a concrete artifact and destination repo. -/
theorem c7_copy_dest_path_witness :
    ((Artifact.init "app" "com.example" "libs" (some "nupkg")
      none).set_version "1.0").version = some "1.0" ∧
    ("1.0" : String) ≠ "" ∧
    ((Artifact.init "app" "com.example" "libs" (some "nupkg")
      none).set_version "1.0").extension ≠ "" ∧
    ∃ src_url,
      ((Artifact.init "app" "com.example" "libs" (some "nupkg")
        none).set_version "1.0").get_url
          ((Api.init "http://h" "k").api_url ++ "/copy") = .ok src_url ∧
      Api.copy_artifact (Api.init "http://h" "k")
        (.art ((Artifact.init "app" "com.example" "libs" (some "nupkg")
          none).set_version "1.0")) "staging" =
        .ok { method := "POST"
              url := src_url ++ "?to=" ++
                ("/" ++ "staging" ++ "/" ++ "com.example" ++ "/" ++ "app" ++
                  "/" ++ "app" ++
                  ((Artifact.init "app" "com.example" "libs" (some "nupkg")
                    none).set_version "1.0").version_separator ++ "1.0" ++
                  "." ++ "nupkg")
              headers := (Api.init "http://h" "k").headers
              body_text := none
              body_bytes := none } :=
  ⟨rfl, by decide, by decide,
    c7_copy_dest_path (Api.init "http://h" "k")
      ((Artifact.init "app" "com.example" "libs" (some "nupkg")
        none).set_version "1.0") "staging" "1.0" rfl (by decide) (by decide)⟩

/-- Claim C8 (confirmed): when the metadata response's properties carry a
`nuget.description` entry, `get_artifact_metadata` stores under
`nuget.sem_version` the leftmost match of the semver pattern in the
description when one exists, and the artifact's own version string unchanged
when the description does not match. -/
theorem c8_sem_version_derivation (api : Api) (a : Artifact) (status : Nat)
    (props : List (String × PropVal)) (d : String) (rest : List String)
    (v : String) (hv : a.version = some v) (hvne : v ≠ "")
    (he : a.extension ≠ "")
    (hd : props.lookup "nuget.description" = some (.strs (d :: rest))) :
    (∀ m, reSearch semverRe d = some m →
      Api.get_artifact_metadata api (.art a) (fun _ => (status, ⟨some props⟩))
        = .ok (status,
          ⟨some (dictSet props "nuget.sem_version" (.str m))⟩)) ∧
    (reSearch semverRe d = none →
      Api.get_artifact_metadata api (.art a) (fun _ => (status, ⟨some props⟩))
        = .ok (status,
          ⟨some (dictSet props "nuget.sem_version" (.str v))⟩)) := by
  have htr : truthyOpt a.version = true := by simp [truthyOpt, hv, hvne]
  rw [Api.get_artifact_metadata, Artifact.get_url, if_neg (by simp [htr, he])]
  constructor
  · intro m hm
    simp only [hd, pyIndex0, hm, hv]
  · intro hm
    simp only [hd, pyIndex0, hm, hv]

/-- Claim C8, witness: the description `1.2.3.4+56g1a2b3c4` is itself the
leftmost semver match and is stored as the derived version. -/
theorem c8_sem_version_derivation_witness :
    ((Artifact.init "pkg" "g" "r" (some "nupkg") none).set_version
      "9.9").version = some "9.9" ∧
    ("9.9" : String) ≠ "" ∧
    ((Artifact.init "pkg" "g" "r" (some "nupkg") none).set_version
      "9.9").extension ≠ "" ∧
    [("nuget.description",
      PropVal.strs ["1.2.3.4+56g1a2b3c4"])].lookup "nuget.description" =
      some (.strs ("1.2.3.4+56g1a2b3c4" :: [])) ∧
    reSearch semverRe "1.2.3.4+56g1a2b3c4" = some "1.2.3.4+56g1a2b3c4" ∧
    (∀ m, reSearch semverRe "1.2.3.4+56g1a2b3c4" = some m →
      Api.get_artifact_metadata (Api.init "http://h" "k")
        (.art ((Artifact.init "pkg" "g" "r" (some "nupkg") none).set_version
          "9.9"))
        (fun _ => (200, ⟨some [("nuget.description",
          PropVal.strs ["1.2.3.4+56g1a2b3c4"])]⟩)) =
        .ok (200, ⟨some (dictSet [("nuget.description",
          PropVal.strs ["1.2.3.4+56g1a2b3c4"])] "nuget.sem_version"
          (.str m))⟩)) :=
  ⟨rfl, by decide, by decide, by decide, by decide,
    (c8_sem_version_derivation (Api.init "http://h" "k")
      ((Artifact.init "pkg" "g" "r" (some "nupkg") none).set_version "9.9")
      200 [("nuget.description", PropVal.strs ["1.2.3.4+56g1a2b3c4"])]
      "1.2.3.4+56g1a2b3c4" [] "9.9" rfl (by decide) (by decide)
      (by decide)).1⟩

/-- Claim C3 (confirmed): `_hash_file` returns the standard MD5 and SHA-1 hex
digests of the whole content; feeding the hash objects any chunk
decomposition of the content (in particular the 64 KiB read loop, for
contents of any size) accumulates exactly the content, so the digests do not
depend on chunk boundaries; and `publish_artifact` sends those two digests as
the `X-Checksum-MD5` and `X-Checksum-Sha1` request headers of its PUT. -/
theorem c3_checksum_protocol (content : List Nat) (chunks : List (List Nat))
    (hchunks : chunks.flatten = content) (api : Api) (a : Artifact)
    (v : String) (hv : a.version = some v) (hvne : v ≠ "")
    (he : a.extension ≠ "") :
    Api.hash_file content = ⟨md5Hex content, sha1Hex content⟩ ∧
    (chunks.foldl HashlibState.update ⟨[]⟩).md5_hexdigest = md5Hex content ∧
    (chunks.foldl HashlibState.update ⟨[]⟩).sha1_hexdigest = sha1Hex content ∧
    ∃ req, Api.publish_artifact api (.art a) content = .ok req ∧
      ("X-Checksum-MD5", md5Hex content) ∈ req.headers ∧
      ("X-Checksum-Sha1", sha1Hex content) ∈ req.headers ∧
      req.method = "PUT" ∧ req.body_bytes = some content := by
  have hread : (readChunks 65536 content).flatten = content :=
    readChunks_join 65536 (by omega) content
  have hfed : (chunks.foldl HashlibState.update ⟨[]⟩).fed = content := by
    rw [foldl_update_fed, hchunks]
    rfl
  have hhash : Api.hash_file content = ⟨md5Hex content, sha1Hex content⟩ := by
    rw [Api.hash_file, foldl_update_pair_fed, hread]
    rfl
  refine ⟨hhash,
    by rw [HashlibState.md5_hexdigest, hfed],
    by rw [HashlibState.sha1_hexdigest, hfed], ?_⟩
  obtain ⟨u, hu⟩ : ∃ s, a.get_url api.base_url = .ok s := by
    rw [Artifact.get_url, if_neg (by simp [truthyOpt, hv, hvne, he])]
    exact ⟨_, rfl⟩
  have hpub : Api.publish_artifact api (.art a) content =
      .ok { method := "PUT"
            url := u
            headers := [("X-JFrog-Art-Api", api.api_key),
              ("X-Checksum-Sha1", (Api.hash_file content).sha1),
              ("X-Checksum-MD5", (Api.hash_file content).md5)]
            body_text := none
            body_bytes := some content } := by
    simp only [Api.publish_artifact, hu]
  refine ⟨_, hpub, ?_, ?_, rfl, rfl⟩
  · simp [hhash]
  · simp [hhash]

/-- Claim C3, witness: the three-byte content `abc` split into the chunks
`[a]` and `[bc]`. -/
theorem c3_checksum_protocol_witness :
    ([[97], [98, 99]] : List (List Nat)).flatten = [97, 98, 99] ∧
    ((Artifact.init "a" "g" "r" (some "zip") none).set_version "1").version =
      some "1" ∧
    ("1" : String) ≠ "" ∧
    ((Artifact.init "a" "g" "r" (some "zip") none).set_version
      "1").extension ≠ "" ∧
    (Api.hash_file [97, 98, 99] =
        ⟨md5Hex [97, 98, 99], sha1Hex [97, 98, 99]⟩ ∧
      (([[97], [98, 99]] : List (List Nat)).foldl HashlibState.update
        ⟨[]⟩).md5_hexdigest = md5Hex [97, 98, 99] ∧
      (([[97], [98, 99]] : List (List Nat)).foldl HashlibState.update
        ⟨[]⟩).sha1_hexdigest = sha1Hex [97, 98, 99] ∧
      ∃ req, Api.publish_artifact (Api.init "http://h" "k")
          (.art ((Artifact.init "a" "g" "r" (some "zip") none).set_version
            "1")) [97, 98, 99] = .ok req ∧
        ("X-Checksum-MD5", md5Hex [97, 98, 99]) ∈ req.headers ∧
        ("X-Checksum-Sha1", sha1Hex [97, 98, 99]) ∈ req.headers ∧
        req.method = "PUT" ∧ req.body_bytes = some [97, 98, 99]) :=
  ⟨by decide, rfl, by decide, by decide,
    c3_checksum_protocol [97, 98, 99] [[97], [98, 99]] (by decide)
      (Api.init "http://h" "k")
      ((Artifact.init "a" "g" "r" (some "zip") none).set_version "1") "1"
      rfl (by decide) (by decide)⟩

/-- Claim C6 (confirmed): for every repo string and datetime (with no
JSON-escaped characters involved), `get_artifacts_since` POSTs to the AQL
endpoint exactly the body
`items.find({"$and": [{"repo": {"$eq": "<repo>"}}, {"modified": {"$gt":
"<since.isoformat()>"}}]})`, and appends `.include("p1","p2",...)` exactly
when `additional_props` is a non-empty list. -/
theorem c6_aql_body (api : Api) (repo : String) (dt : Datetime)
    (h1 : jsonPlain repo = true) (h2 : jsonPlain dt.isoformat = true) :
    (Api.get_artifacts_since api repo dt none).method = "POST" ∧
    (Api.get_artifacts_since api repo dt none).url =
      api.api_url ++ "/search/aql" ∧
    (Api.get_artifacts_since api repo dt none).headers = api.headers ∧
    (Api.get_artifacts_since api repo dt none).body_text =
      some ("items.find(\x7b\"$and\": [\x7b\"repo\": " ++
        "\x7b\"$eq\": \"" ++ repo ++ "\"\x7d\x7d, \x7b\"modified\": " ++
        "\x7b\"$gt\": \"" ++ dt.isoformat ++ "\"\x7d\x7d]\x7d)") ∧
    (∀ q rest,
      (Api.get_artifacts_since api repo dt (some (q :: rest))).body_text =
        some ("items.find(\x7b\"$and\": [\x7b\"repo\": " ++
          "\x7b\"$eq\": \"" ++ repo ++ "\"\x7d\x7d, \x7b\"modified\": " ++
          "\x7b\"$gt\": \"" ++ dt.isoformat ++ "\"\x7d\x7d]\x7d)" ++
          ".include(\"" ++ String.intercalate "\",\"" (q :: rest) ++ "\")")) ∧
    Api.get_artifacts_since api repo dt (some []) =
      Api.get_artifacts_since api repo dt none := by
  refine ⟨rfl, rfl, rfl, ?_, fun q rest => ?_, rfl⟩ <;>
  · simp only [Api.get_artifacts_since]
    refine congrArg some ?_
    apply strExt
    simp only [jdump, jdumpArr, jdumpObj, jdumpStr_plain repo h1,
      jdumpStr_plain dt.isoformat h2, strData_append, List.append_assoc]
    rfl

/-- Claim C6, witness: repo `libs-release`, since `2024-01-01T00:00:00`, and
`additional_props = ["name", "path"]`, matching the worked example of the
claim. -/
theorem c6_aql_body_witness :
    jsonPlain "libs-release" = true ∧
    jsonPlain (Datetime.mk 2024 1 1 0 0 0 0).isoformat = true ∧
    ((Api.get_artifacts_since (Api.init "http://h" "k") "libs-release"
        (Datetime.mk 2024 1 1 0 0 0 0) none).method = "POST" ∧
    (Api.get_artifacts_since (Api.init "http://h" "k") "libs-release"
        (Datetime.mk 2024 1 1 0 0 0 0) none).url =
      (Api.init "http://h" "k").api_url ++ "/search/aql" ∧
    (Api.get_artifacts_since (Api.init "http://h" "k") "libs-release"
        (Datetime.mk 2024 1 1 0 0 0 0) none).headers =
      (Api.init "http://h" "k").headers ∧
    (Api.get_artifacts_since (Api.init "http://h" "k") "libs-release"
        (Datetime.mk 2024 1 1 0 0 0 0) none).body_text =
      some ("items.find(\x7b\"$and\": [\x7b\"repo\": " ++
        "\x7b\"$eq\": \"" ++ "libs-release" ++
        "\"\x7d\x7d, \x7b\"modified\": " ++ "\x7b\"$gt\": \"" ++
        (Datetime.mk 2024 1 1 0 0 0 0).isoformat ++ "\"\x7d\x7d]\x7d)") ∧
    (∀ q rest, (Api.get_artifacts_since (Api.init "http://h" "k")
        "libs-release" (Datetime.mk 2024 1 1 0 0 0 0)
        (some (q :: rest))).body_text =
      some ("items.find(\x7b\"$and\": [\x7b\"repo\": " ++
        "\x7b\"$eq\": \"" ++ "libs-release" ++
        "\"\x7d\x7d, \x7b\"modified\": " ++ "\x7b\"$gt\": \"" ++
        (Datetime.mk 2024 1 1 0 0 0 0).isoformat ++ "\"\x7d\x7d]\x7d)" ++
        ".include(\"" ++ String.intercalate "\",\"" (q :: rest) ++ "\")")) ∧
    Api.get_artifacts_since (Api.init "http://h" "k") "libs-release"
        (Datetime.mk 2024 1 1 0 0 0 0) (some []) =
      Api.get_artifacts_since (Api.init "http://h" "k") "libs-release"
        (Datetime.mk 2024 1 1 0 0 0 0) none) :=
  ⟨by decide, by decide,
    c6_aql_body (Api.init "http://h" "k") "libs-release"
      (Datetime.mk 2024 1 1 0 0 0 0) (by decide) (by decide)⟩

end Artifactory
